import Mathlib

/-!
Shallow embedding of the e-commerce backend (user registration/login with
bcrypt password hashing and JWT issuance, JWT authorization middleware,
per-user cart, payment endpoint).  Each definition mirrors one function or
route handler of the JavaScript source; JavaScript truthiness on optional
request-body fields is modelled with `Option`, machine-level strings with
`String`/`List Char`, and the external bcrypt / jsonwebtoken libraries with
concrete executable models that expose exactly the structure the handlers
rely on (salted one-way hash with embedded salt; signed payload with expiry).
-/

/-! ### JavaScript truthiness helpers -/

/-- Truthiness of an optional string request field: `undefined`/missing and
the empty string are falsy, every other string is truthy (JS `!x`). -/
def jsTruthyStr (v : Option String) : Bool :=
  match v with
  | none => false
  | some s => !s.isEmpty

/-- Truthiness of an optional numeric request field: `undefined` and `0` are
falsy (JS `!x` on a number). -/
def jsTruthyInt (v : Option Int) : Bool :=
  match v with
  | none => false
  | some n => n != 0

/-- JS `a || d` on an optional string: the default is taken when `a` is
`undefined` or the empty string. -/
def jsOrStr (v : Option String) (d : String) : String :=
  match v with
  | none => d
  | some s => if s.isEmpty then d else s

/-! ### bcrypt model (`bcrypt.hash` / `bcrypt.compare`)

The library is external to the repository; it is modelled concretely:
a hash is `"$2b$10$" ++ salt ++ digest(salt, plaintext)` where the digest is
a per-character mixing of salt and plaintext, and `compare` re-hashes the
candidate with the salt recovered from the stored string (bcrypt salts are
22 base64 characters). -/

/-- Digest part of the modelled bcrypt hash: a character-wise mixing of the
salt and the plaintext. -/
def bcryptDigestL (salt p : List Char) : List Char :=
  (salt ++ p).map (fun c => Char.ofNat (c.toNat % 64 + 46))

/-- Modelled bcrypt hash over character lists: version/cost prefix, then the
salt, then the digest. -/
def bcryptHashL (salt p : List Char) : List Char :=
  "$2b$10$".data ++ salt ++ bcryptDigestL salt p

/-- `bcrypt.hash(p, 10)` with salt `salt`. -/
def bcryptHash (salt p : String) : String :=
  ⟨bcryptHashL salt.data p.data⟩

/-- Salt recovery from a stored bcrypt hash: the 22 characters after the
7-character `$2b$10$` prefix. -/
def bcryptSaltOf (stored : String) : String :=
  ⟨(stored.data.drop 7).take 22⟩

/-- `bcrypt.compare(candidate, stored)`: re-hash the candidate with the salt
embedded in the stored hash and compare. -/
def bcryptCompare (candidate stored : String) : Bool :=
  stored == bcryptHash (bcryptSaltOf stored) candidate

/-! ### JWT model (`jsonwebtoken`)

A token carries a payload and the secret it was signed with (standing for
the signature).  The payload records the two claim keys actually used by the
source (`id` in the app-router login route, `userId` in the register routes
and the monolithic login route) plus the absolute expiry time. -/

structure JwtPayload where
  id : Option Nat
  userId : Option Nat
  exp : Nat
deriving DecidableEq, Repr

structure Jwt where
  payload : JwtPayload
  sig : String
deriving DecidableEq, Repr

inductive JwtError where
  | invalidSignature
  | expired
deriving DecidableEq, Repr

/-- `jwt.verify(token, secret)` at clock time `now`: rejects a wrong
signature and an expired token, otherwise yields the payload. -/
def jwtVerify (t : Jwt) (secret : String) (now : Nat) : Except JwtError JwtPayload :=
  if t.sig ≠ secret then .error .invalidSignature
  else if t.payload.exp ≤ now then .error .expired
  else .ok t.payload

/-- `jwt.sign({ id: user._id }, secret, { expiresIn: "1d" })` — the
app-router login route (src/app/api/login/route.js). -/
def signLoginToken (uid : Nat) (secret : String) (now : Nat) : Jwt :=
  ⟨⟨some uid, none, now + 86400⟩, secret⟩

/-- `jwt.sign({ userId: newUser._id }, secret, { expiresIn: '1h' })` — the
register router (src/app/api/register/route.js). -/
def signRegisterToken (uid : Nat) (secret : String) (now : Nat) : Jwt :=
  ⟨⟨none, some uid, now + 3600⟩, secret⟩

/-- `jwt.sign({ userId: user._id }, process.env.JWT_SECRET || 'your-secret-key',
{ expiresIn: '1h' })` — the monolithic register handler (models/Cart.js). -/
def signMonoRegisterToken (uid : Nat) (envSecret : Option String) (now : Nat) : Jwt :=
  ⟨⟨none, some uid, now + 3600⟩, jsOrStr envSecret "your-secret-key"⟩

/-- `jwt.sign({ userId: user._id }, process.env.JWT_SECRET, { expiresIn: '24h' })`
— the monolithic login handler (models/Cart.js). -/
def signMonoLoginToken (uid : Nat) (secret : String) (now : Nat) : Jwt :=
  ⟨⟨none, some uid, now + 86400⟩, secret⟩

/-! ### Authorization middleware (`/middleware/authMiddleware.js`)

`const token = req.headers.authorization?.split(' ')[1]` followed by
`jwt.verify(token, process.env.JWT_SECRET)`; on success the request proceeds
with `req.userId = decoded.id`, otherwise a 401 is returned. -/

/-- JS `String.prototype.split(' ')`: splits at every space, keeping empty
pieces, over the character list of the string. -/
def jsSplitSpace : List Char → List (List Char)
  | [] => [[]]
  | c :: rest =>
    if c = ' ' then [] :: jsSplitSpace rest
    else
      match jsSplitSpace rest with
      | [] => [[c]]
      | w :: ws => (c :: w) :: ws

/-- `req.headers.authorization?.split(' ')[1]`. -/
def extractToken (authHeader : Option String) : Option String :=
  match authHeader with
  | none => none
  | some h => ((jsSplitSpace h.data)[1]?).map String.mk

/-- Outcome of the middleware: either the request proceeds with
`req.userId = decoded.id` attached, or a 401 JSON `{ message }`. -/
inductive AuthResult where
  | next (userId : Option Nat)
  | unauthorized (message : String)
deriving DecidableEq, Repr

/-- The middleware, parameterised by the wire decoding of token strings
(`decode` stands for jsonwebtoken's parsing of the compact serialization;
a string that is not a token at all fails verification). -/
def authMiddleware (decode : String → Option Jwt) (authHeader : Option String)
    (secret : String) (now : Nat) : AuthResult :=
  match extractToken authHeader with
  | none => .unauthorized "No token, authorization denied"
  | some tok =>
    if tok.isEmpty then .unauthorized "No token, authorization denied"
    else
      match decode tok with
      | none => .unauthorized "Token is not valid"
      | some t =>
        match jwtVerify t secret now with
        | .ok payload => .next payload.id
        | .error _ => .unauthorized "Token is not valid"

/-! ### User data model (`/models/User.js`, the cart-bearing user) and
product catalog (`/models/Product.js`)

Mongoose `Number` does not force integrality, so quantities and prices are
rationals; `required` fields without further validators are modelled by
presence (`Option … |>.isSome`), `min` validators by the corresponding
bound. -/

structure UserCartItem where
  productId : Option Nat
  quantity : Option ℚ
deriving DecidableEq

structure Product where
  id : Nat
  name : String
  description : String
  price : ℚ
  image : String
  stock : ℚ
deriving DecidableEq

structure UserDoc where
  id : Nat
  name : String
  email : String
  password : String
  cart : List UserCartItem
deriving DecidableEq

/-- Schema validation of one embedded cart entry in `/models/User.js`:
`productId` required, `quantity` required with `min: 1`. -/
def userCartItemValid (it : UserCartItem) : Bool :=
  it.productId.isSome &&
    (match it.quantity with
     | none => false
     | some q => decide (1 ≤ q))

/-- Schema validation of the embedded `cart` array of `/models/User.js`. -/
def userCartValid (c : List UserCartItem) : Bool :=
  c.all userCartItemValid

/-- One item of the standalone `models/Cart.js` schema: `productId`,
`quantity` and `price` are `required` but carry no further validator. -/
structure CartDocItem where
  productId : Option Nat
  quantity : Option ℚ
  price : Option ℚ
deriving DecidableEq

/-- Schema validation of one item of the standalone Cart document: presence
of the three required fields is all the schema asks. -/
def cartDocItemValid (it : CartDocItem) : Bool :=
  it.productId.isSome && it.quantity.isSome && it.price.isSome

/-- Schema validation of the standalone Cart document's `items` array. -/
def cartDocItemsValid (items : List CartDocItem) : Bool :=
  items.all cartDocItemValid

/-! ### Cart route (`router.get('/')` with `authMiddleware`)

`User.findById(req.userId).populate('cart.productId')`, 404 when the user is
missing, otherwise `res.json(user.cart)` with product references resolved
against the catalog. -/

/-- `User.findById(req.userId)` over the modelled user collection. -/
def findById (store : List UserDoc) (uid : Option Nat) : Option UserDoc :=
  match uid with
  | none => none
  | some i => store.find? (fun u => u.id == i)

/-- `populate('cart.productId')` on one line item: the product reference is
replaced by the catalog document (or `null` when absent). -/
def populateItem (catalog : List Product) (it : UserCartItem) :
    Option Product × Option ℚ :=
  (it.productId.bind (fun pid => catalog.find? (fun pr => pr.id == pid)), it.quantity)

structure CartRes where
  status : Nat
  message : Option String
  items : Option (List (Option Product × Option ℚ))
deriving DecidableEq

/-- The GET `/cart` route: middleware, then lookup of the authenticated
user, then the populated cart. -/
def cartGET (decode : String → Option Jwt) (store : List UserDoc)
    (catalog : List Product) (authHeader : Option String) (secret : String)
    (now : Nat) : CartRes :=
  match authMiddleware decode authHeader secret now with
  | .unauthorized msg => { status := 401, message := some msg, items := none }
  | .next uid =>
    match findById store uid with
    | none => { status := 404, message := some "User not found", items := none }
    | some u =>
      { status := 200, message := none
        items := some (u.cart.map (populateItem catalog)) }

/-- Replacing user `uid`'s cart in the collection: the state change "user
B's cart is modified" against which isolation is stated. -/
def setUserCart (store : List UserDoc) (uid : Nat) (c : List UserCartItem) :
    List UserDoc :=
  store.map (fun u => if u.id == uid then { u with cart := c } else u)

/-! ### Register router (`src/app/api/register/route.js`)

`if (!name || !email || !password)` → 400; existing email → 400; otherwise
bcrypt-hash the password, save the user, sign a `{ userId }` token and
answer `201 { success: true, token }`. -/

structure RegisterBody where
  name : Option String
  email : Option String
  password : Option String
deriving DecidableEq

structure RegUserView where
  id : Nat
  name : String
  email : String
deriving DecidableEq

structure RegisterRes where
  status : Nat
  success : Option Bool
  message : Option String
  token : Option Jwt
  user : Option RegUserView
deriving DecidableEq

/-- The POST `/register` handler.  `salt` stands for the randomness of
`bcrypt.hash(password, 10)`, `fresh` for the ObjectId given to the new
document.  Returns the response and the resulting user collection. -/
def registerPOST (store : List UserDoc) (body : RegisterBody) (salt : String)
    (fresh : Nat) (secret : String) (now : Nat) :
    RegisterRes × List UserDoc :=
  if !jsTruthyStr body.name || !jsTruthyStr body.email || !jsTruthyStr body.password then
    ({ status := 400, success := none, message := some "All fields are required"
       token := none, user := none }, store)
  else
    match store.find? (fun u => u.email == body.email.getD "") with
    | some _ =>
      ({ status := 400, success := none, message := some "User already exists"
         token := none, user := none }, store)
    | none =>
      let hashed := bcryptHash salt (body.password.getD "")
      let newUser : UserDoc :=
        { id := fresh, name := body.name.getD "", email := body.email.getD ""
          password := hashed, cart := [] }
      ({ status := 201, success := some true, message := none
         token := some (signRegisterToken fresh secret now), user := none },
       store ++ [newUser])

/-! ### App-router login (`src/app/api/login/route.js`)

`User.findOne({email})`; missing user → `404 { message: "User not found" }`;
`bcrypt.compare` mismatch → `401 { message: "Invalid credentials" }`;
otherwise sign `{ id: user._id }` and answer `200 { token }`.  A missing
signing secret makes `jwt.sign` throw, which the catch maps to a 500. -/

structure NextLoginRes where
  status : Nat
  message : Option String
  token : Option Jwt
  error : Option String
deriving DecidableEq

def nextLoginPOST (store : List UserDoc) (email password : String)
    (secret : Option String) (now : Nat) : NextLoginRes :=
  match store.find? (fun u => u.email == email) with
  | none => { status := 404, message := some "User not found", token := none, error := none }
  | some user =>
    if !(bcryptCompare password user.password) then
      { status := 401, message := some "Invalid credentials", token := none, error := none }
    else
      match secret with
      | none =>
        { status := 500, message := none, token := none
          error := some "secretOrPrivateKey must have a value" }
      | some s =>
        { status := 200, message := none
          token := some (signLoginToken user.id s now), error := none }

/-! ### Monolithic login (`app.post('/api/login')` in models/Cart.js)

Missing credentials → 400; unknown email and wrong password both →
`401 { success: false, error: 'Invalid email or password' }`; success →
`200` with token and profile. -/

structure MonoUser where
  id : Nat
  name : String
  phoneNumber : String
  city : String
  email : String
  password : String
deriving DecidableEq

structure MonoUserView where
  id : Nat
  name : String
  email : String
  phoneNumber : String
  city : String
deriving DecidableEq

structure MonoLoginRes where
  status : Nat
  success : Option Bool
  error : Option String
  message : Option String
  token : Option Jwt
  user : Option MonoUserView
deriving DecidableEq

/-- `userSchema.methods.comparePassword`. -/
def comparePassword (u : MonoUser) (candidate : String) : Bool :=
  bcryptCompare candidate u.password

def monoLoginPOST (store : List MonoUser) (email password : Option String)
    (secret : Option String) (now : Nat) : MonoLoginRes :=
  if !jsTruthyStr email || !jsTruthyStr password then
    { status := 400, success := some false, error := some "Email and password are required"
      message := none, token := none, user := none }
  else
    match store.find? (fun u => u.email == email.getD "") with
    | none =>
      { status := 401, success := some false, error := some "Invalid email or password"
        message := none, token := none, user := none }
    | some user =>
      if !(comparePassword user (password.getD "")) then
        { status := 401, success := some false, error := some "Invalid email or password"
          message := none, token := none, user := none }
      else
        match secret with
        | none =>
          { status := 500, success := some false, error := some "Login failed. Please try again later."
            message := none, token := none, user := none }
        | some s =>
          { status := 200, success := some true, error := none
            message := some "Login successful"
            token := some (signMonoLoginToken user.id s now)
            user := some ⟨user.id, user.name, user.email, user.phoneNumber, user.city⟩ }

/-! ### Payment route (`src/app/api/payment/route.js`)

`if (!token || !amount)` → `400 { success: false, message: 'Missing token or
amount.' }`; otherwise a charge is forwarded to the processor and the
response reflects its outcome.  The pair's second component records the
charge request actually sent (or `none`). -/

structure StripeToken where
  id : String
deriving DecidableEq

structure PaymentBody where
  token : Option StripeToken
  amount : Option Int
deriving DecidableEq

structure ChargeRequest where
  amount : Int
  currency : String
  source : String
  description : String
deriving DecidableEq

structure PaymentRes where
  status : Nat
  success : Option Bool
  message : Option String
  data : Option String
deriving DecidableEq

def paymentPOST (stripeCharge : ChargeRequest → Except String String)
    (body : PaymentBody) : PaymentRes × Option ChargeRequest :=
  if !body.token.isSome || !jsTruthyInt body.amount then
    ({ status := 400, success := some false, message := some "Missing token or amount."
       data := none }, none)
  else
    let req : ChargeRequest :=
      { amount := body.amount.getD 0, currency := "inr"
        source := (body.token.getD ⟨""⟩).id, description := "Supermarket payment" }
    match stripeCharge req with
    | .ok chargeId =>
      ({ status := 200, success := some true, message := none, data := some chargeId }, some req)
    | .error msg =>
      ({ status := 500, success := some false, message := some msg, data := none }, some req)

/-! ### Concrete fixtures for closed runs -/

/-- A 22-character bcrypt salt. -/
def salt22 : String := "0123456789abcdefghijkl"

/-- Wire decoder for concrete runs: `tkn1` is the app-router login token of
user 1, signed with secret `sec` at time 0; other strings are not tokens. -/
def dec1 : String → Option Jwt :=
  fun s => if s == "tkn1" then some (signLoginToken 1 "sec" 0) else none

/-- Wire decoder for concrete runs: `regtok` is the register-router token of
user 42, signed with secret `s3` at time 0. -/
def dec2 : String → Option Jwt :=
  fun s => if s == "regtok" then some (signRegisterToken 42 "s3" 0) else none

def user1 : UserDoc :=
  { id := 1, name := "Ann", email := "a@x.com", password := bcryptHash salt22 "secret1"
    cart := [{ productId := some 5, quantity := some 2 }] }

def user2 : UserDoc :=
  { id := 2, name := "Bob", email := "b@x.com", password := bcryptHash salt22 "hunter2"
    cart := [{ productId := some 5, quantity := some 1 }] }

def monoUser1 : MonoUser :=
  { id := 7, name := "Ann", phoneNumber := "0123456789", city := "Pune"
    email := "a@x.com", password := bcryptHash salt22 "secret1" }

/-- The rational 3/2, given by numerator and denominator so that concrete
schema checks on it evaluate. -/
def q32 : ℚ := ⟨3, 2, by norm_num, by norm_num⟩

/-! ### Helper theorems -/

theorem bcryptHash_ne_plaintext (salt p : String) : bcryptHash salt p ≠ p := by
  intro he
  have hd : bcryptHashL salt.data p.data = p.data := congrArg String.data he
  have hl := congrArg List.length hd
  simp [bcryptHashL, bcryptDigestL, List.length_append, List.length_map] at hl
  omega

theorem bcryptSaltOf_hash (salt p : String) (h : salt.length = 22) :
    bcryptSaltOf (bcryptHash salt p) = salt := by
  have hdata : salt.data.length = 22 := h
  have hpre : ("$2b$10$".data).length = 7 := by decide
  show String.mk ((((("$2b$10$".data ++ salt.data ++ bcryptDigestL salt.data p.data)).drop 7).take 22)) = salt
  rw [List.append_assoc, List.drop_left' hpre, List.take_left' hdata]

theorem bcryptCompare_hash (salt p : String) (h : salt.length = 22) :
    bcryptCompare p (bcryptHash salt p) = true := by
  unfold bcryptCompare
  rw [bcryptSaltOf_hash salt p h]
  simp

theorem jsSplitSpace_no_space (l : List Char) (h : ' ' ∉ l) :
    jsSplitSpace l = [l] := by
  induction l with
  | nil => rfl
  | cons c rest ih =>
    have hc : ¬(c = ' ') := fun hc => h (hc ▸ List.mem_cons_self c rest)
    have hr : ' ' ∉ rest := fun hm => h (List.mem_cons_of_mem c hm)
    simp [jsSplitSpace, hc, ih hr]

theorem jsSplitSpace_append (l₁ l₂ : List Char) (h : ' ' ∉ l₁) :
    jsSplitSpace (l₁ ++ ' ' :: l₂) = l₁ :: jsSplitSpace l₂ := by
  induction l₁ with
  | nil => simp [jsSplitSpace]
  | cons c rest ih =>
    have hc : ¬(c = ' ') := fun hc => h (hc ▸ List.mem_cons_self c rest)
    have hr : ' ' ∉ rest := fun hm => h (List.mem_cons_of_mem c hm)
    simp only [List.cons_append, jsSplitSpace, if_neg hc]
    have ih2 : jsSplitSpace (rest.append (' ' :: l₂)) = rest :: jsSplitSpace l₂ := ih hr
    rw [ih2]

theorem extractToken_scheme (scheme tok : String) (hs : ' ' ∉ scheme.data)
    (ht : ' ' ∉ tok.data) :
    extractToken (some (scheme ++ " " ++ tok)) = some tok := by
  have hdata : (scheme ++ " " ++ tok).data = scheme.data ++ ' ' :: tok.data := by
    show scheme.data ++ " ".data ++ tok.data = scheme.data ++ ' ' :: tok.data
    simp
  show ((jsSplitSpace (scheme ++ " " ++ tok).data)[1]?).map String.mk = some tok
  rw [hdata, jsSplitSpace_append _ _ hs, jsSplitSpace_no_space _ ht]
  rfl

theorem extractToken_no_space (s : String) (h : ' ' ∉ s.data) :
    extractToken (some s) = none := by
  show ((jsSplitSpace s.data)[1]?).map String.mk = none
  rw [jsSplitSpace_no_space _ h]
  rfl

theorem find_setUserCart (store : List UserDoc) (b i : Nat)
    (c : List UserCartItem) (hne : b ≠ i) :
    (setUserCart store b c).find? (fun u => u.id == i) =
      store.find? (fun u => u.id == i) := by
  induction store with
  | nil => rfl
  | cons u rest ih =>
    show ((if u.id == b then { u with cart := c } else u) :: setUserCart rest b c).find?
        (fun x => x.id == i) = ((u :: rest).find? (fun x => x.id == i))
    by_cases hb : u.id = b
    · have hifp : (if u.id == b then ({ u with cart := c } : UserDoc) else u)
          = { u with cart := c } := by simp [hb]
      have h1 : ((({ u with cart := c } : UserDoc)).id == i) = false := by
        show (u.id == i) = false
        rw [hb]
        exact beq_eq_false_iff_ne.mpr hne
      have h2 : (u.id == i) = false := by
        rw [hb]
        exact beq_eq_false_iff_ne.mpr hne
      rw [hifp]
      simp only [List.find?_cons, h1, h2]
      exact ih
    · have hifp : (if u.id == b then ({ u with cart := c } : UserDoc) else u) = u := by
        simp [hb]
      rw [hifp]
      by_cases hi : u.id = i
      · have h3 : (u.id == i) = true := by
          rw [hi]
          exact beq_self_eq_true i
        simp only [List.find?_cons, h3]
      · have h4 : (u.id == i) = false := beq_eq_false_iff_ne.mpr hi
        simp only [List.find?_cons, h4]
        exact ih

example : jsSplitSpace "Bearer tok".data = ["Bearer".data, "tok".data] := by decide
example : extractToken (some "Bearer tok") = some "tok" := by decide
example : extractToken (some "tok") = none := by decide
example : bcryptCompare "secret1" (bcryptHash "0123456789abcdefghijkl" "secret1") = true := by decide
example : bcryptCompare "wrong" (bcryptHash "0123456789abcdefghijkl" "secret1") = false := by decide

/-! ### Claim theorems -/

/-- C1: cart operations are isolated between users.  A GET /cart request
whose bearer token resolves to identity `aId` returns exactly that user's
(populated) cart, and replacing any other user `b`'s cart leaves the
response unchanged. -/
theorem cart_owner_isolation (decode : String → Option Jwt) (store : List UserDoc)
    (catalog : List Product) (authHeader : Option String) (secret : String) (now : Nat)
    (aId : Nat) (a : UserDoc) (b : Nat) (c : List UserCartItem)
    (hauth : authMiddleware decode authHeader secret now = .next (some aId))
    (ha : findById store (some aId) = some a)
    (hne : b ≠ aId) :
    cartGET decode store catalog authHeader secret now =
      { status := 200, message := none, items := some (a.cart.map (populateItem catalog)) }
    ∧ cartGET decode (setUserCart store b c) catalog authHeader secret now =
      cartGET decode store catalog authHeader secret now := by
  have hfind : findById (setUserCart store b c) (some aId) = findById store (some aId) := by
    unfold findById
    exact find_setUserCart store b aId c hne
  constructor
  · simp only [cartGET, hauth, ha]
  · simp only [cartGET, hauth, hfind]

/-- C1 witness: a concrete two-user store; user 1's token returns user 1's
cart, and replacing user 2's cart does not change the response. -/
theorem cart_owner_isolation_witness :
    cartGET dec1 [user1, user2] [] (some "Bearer tkn1") "sec" 5 =
      { status := 200, message := none, items := some (user1.cart.map (populateItem [])) }
    ∧ cartGET dec1 (setUserCart [user1, user2] 2 []) [] (some "Bearer tkn1") "sec" 5 =
      cartGET dec1 [user1, user2] [] (some "Bearer tkn1") "sec" 5 :=
  cart_owner_isolation dec1 [user1, user2] [] (some "Bearer tkn1") "sec" 5 1 user1 2 []
    (by decide) (by decide) (by decide)

/-- C2: a register-route token (payload key `userId`) signed for user 42
and verified by the middleware before its expiry is accepted, but the
middleware attaches `req.userId = decoded.id = undefined` rather than 42:
the claim that verification attaches exactly the issuing user's identity
fails on register-issued tokens. -/
theorem register_token_loses_identity :
    authMiddleware dec2 (some "Bearer regtok") "s3" 10 = .next none
    ∧ AuthResult.next none ≠ AuthResult.next (some 42) := by
  constructor
  · rfl
  · decide

/-- C3: once a user with email `e` is persisted, any further registration
attempt carrying email `e` answers 400 and leaves the user collection
unchanged. -/
theorem register_duplicate_email_rejected (store : List UserDoc) (body : RegisterBody)
    (salt : String) (fresh : Nat) (secret : String) (now : Nat) (e : String)
    (hbody : body.email = some e)
    (hdup : (store.find? (fun u => u.email == e)).isSome = true) :
    (registerPOST store body salt fresh secret now).1.status = 400
    ∧ (registerPOST store body salt fresh secret now).2 = store := by
  unfold registerPOST
  by_cases h1 : (!jsTruthyStr body.name || !jsTruthyStr body.email || !jsTruthyStr body.password) = true
  · rw [if_pos h1]
    exact ⟨rfl, rfl⟩
  · rw [if_neg h1]
    have hget : body.email.getD "" = e := by rw [hbody]; rfl
    rw [hget]
    obtain ⟨w, hw⟩ := Option.isSome_iff_exists.mp hdup
    rw [hw]
    exact ⟨rfl, rfl⟩

/-- C3 witness: re-registering `a@x.com` against a store that already holds
user 1 is answered 400 and the store is unchanged. -/
theorem register_duplicate_email_rejected_witness :
    (registerPOST [user1] ⟨some "Bea", some "a@x.com", some "hunter2"⟩ salt22 9 "sec" 0).1.status = 400
    ∧ (registerPOST [user1] ⟨some "Bea", some "a@x.com", some "hunter2"⟩ salt22 9 "sec" 0).2 = [user1] :=
  register_duplicate_email_rejected [user1] ⟨some "Bea", some "a@x.com", some "hunter2"⟩
    salt22 9 "sec" 0 "a@x.com" rfl (by decide)

/-- C4: a successful registration persists `bcrypt.hash(password, 10)` in
place of the plaintext: the stored value differs from the plaintext and
`bcrypt.compare(plaintext, stored)` succeeds. -/
theorem register_stores_salted_hash (store : List UserDoc) (body : RegisterBody)
    (salt : String) (fresh : Nat) (secret : String) (now : Nat) (p : String)
    (hpass : body.password = some p)
    (hname : jsTruthyStr body.name = true)
    (hemail : jsTruthyStr body.email = true)
    (hp : p ≠ "")
    (hfree : store.find? (fun u => u.email == body.email.getD "") = none)
    (hsalt : salt.length = 22) :
    (registerPOST store body salt fresh secret now).2 =
      store ++ [{ id := fresh, name := body.name.getD "", email := body.email.getD ""
                  password := bcryptHash salt p, cart := [] }]
    ∧ bcryptHash salt p ≠ p
    ∧ bcryptCompare p (bcryptHash salt p) = true := by
  have hpe : p.isEmpty = false := by
    cases hq : p.isEmpty
    · rfl
    · exact absurd ((String.isEmpty_iff p).mp hq) hp
  have hptruthy : jsTruthyStr body.password = true := by
    rw [hpass]
    show (!p.isEmpty) = true
    rw [hpe]
    rfl
  refine ⟨?_, bcryptHash_ne_plaintext salt p, bcryptCompare_hash salt p hsalt⟩
  unfold registerPOST
  split
  next h1 =>
    rw [hname, hemail, hptruthy] at h1
    simp at h1
  next h1 =>
    rw [hfree, hpass]
    rfl

/-- C4 witness: registering Ann with password `secret1` stores the salted
hash, which differs from `secret1` and verifies against it. -/
theorem register_stores_salted_hash_witness :
    (registerPOST [] ⟨some "Ann", some "a@x.com", some "secret1"⟩ salt22 1 "sec" 0).2 =
      [] ++ [{ id := 1, name := "Ann", email := "a@x.com"
               password := bcryptHash salt22 "secret1", cart := [] }]
    ∧ bcryptHash salt22 "secret1" ≠ "secret1"
    ∧ bcryptCompare "secret1" (bcryptHash salt22 "secret1") = true :=
  register_stores_salted_hash [] ⟨some "Ann", some "a@x.com", some "secret1"⟩ salt22 1 "sec" 0
    "secret1" rfl rfl rfl (by decide) rfl (by decide)

/-- C5 counterexample: the app-router login route answers an unknown email
with 404 and a wrong password with 401, so the two cases are
distinguishable, contrary to the claim that both always give the same 401
response. -/
theorem login_not_found_distinguishable :
    (nextLoginPOST [user1] "b@x.com" "whatever" (some "sec") 0).status = 404
    ∧ (nextLoginPOST [user1] "a@x.com" "wrong" (some "sec") 0).status = 401
    ∧ (nextLoginPOST [user1] "b@x.com" "whatever" (some "sec") 0).status ≠
      (nextLoginPOST [user1] "a@x.com" "wrong" (some "sec") 0).status := by
  refine ⟨by decide, by decide, by decide⟩

/-- Evaluation of the monolithic login on a found user whose password does
not match: the uniform 401 `Invalid email or password` response. -/
theorem monoLogin_eval_wrong_password (store : List MonoUser) (u : MonoUser)
    (e p : String) (secret : Option String) (now : Nat)
    (he : e.isEmpty = false) (hp : p.isEmpty = false)
    (hfound : store.find? (fun x => x.email == e) = some u)
    (hwrong : comparePassword u p = false) :
    monoLoginPOST store (some e) (some p) secret now =
      { status := 401, success := some false, error := some "Invalid email or password"
        message := none, token := none, user := none } := by
  unfold monoLoginPOST
  simp [jsTruthyStr, he, hp, hfound, hwrong]

/-- C5 (amended): the monolithic `/api/login` handler is indistinguishable
on wrong-password versus unknown-email — both produce the identical 401
`{ success: false, error: 'Invalid email or password' }` response — while
the app-router login route distinguishes the two cases (404 versus 401). -/
theorem mono_login_uniform_401 (store : List MonoUser) (u : MonoUser)
    (e p e2 p2 : String) (secret : Option String) (now : Nat)
    (he : e.isEmpty = false) (hp : p.isEmpty = false)
    (he2 : e2.isEmpty = false) (hp2 : p2.isEmpty = false)
    (hfound : store.find? (fun x => x.email == e) = some u)
    (hwrong : comparePassword u p = false)
    (hmiss : store.find? (fun x => x.email == e2) = none) :
    monoLoginPOST store (some e) (some p) secret now =
      monoLoginPOST store (some e2) (some p2) secret now
    ∧ (monoLoginPOST store (some e) (some p) secret now).status = 401 := by
  have hL := monoLogin_eval_wrong_password store u e p secret now he hp hfound hwrong
  have hR : monoLoginPOST store (some e2) (some p2) secret now =
      { status := 401, success := some false, error := some "Invalid email or password"
        message := none, token := none, user := none } := by
    unfold monoLoginPOST
    simp [jsTruthyStr, he2, hp2, hmiss]
  rw [hL, hR]
  exact ⟨rfl, rfl⟩

/-- C5 witness: a concrete monolithic store where `a@x.com` with a wrong
password and the unknown `b@x.com` receive equal 401 responses. -/
theorem mono_login_uniform_401_witness :
    monoLoginPOST [monoUser1] (some "a@x.com") (some "wrong") (some "sec") 0 =
      monoLoginPOST [monoUser1] (some "b@x.com") (some "whatever") (some "sec") 0
    ∧ (monoLoginPOST [monoUser1] (some "a@x.com") (some "wrong") (some "sec") 0).status = 401 :=
  mono_login_uniform_401 [monoUser1] monoUser1 "a@x.com" "wrong" "b@x.com" "whatever"
    (some "sec") 0 (by decide) (by decide) (by decide) (by decide) (by decide) (by decide)
    (by decide)

/-- C6 counterexample: a valid registration through the register router is
answered 201 but the response body carries no `user` object at all, contrary
to the claim that the 201 body contains `user: {id, name, email}`. -/
theorem register_201_lacks_user_object :
    (registerPOST [] ⟨some "Ann", some "a@x.com", some "secret1"⟩ salt22 1 "sec" 0).1.status = 201
    ∧ (registerPOST [] ⟨some "Ann", some "a@x.com", some "secret1"⟩ salt22 1 "sec" 0).1.user = none :=
  ⟨rfl, rfl⟩

/-- C6 (amended): every valid registration is answered 201 with
`success: true` and a (signed, hence non-empty) token, but no user object. -/
theorem register_success_response (store : List UserDoc) (body : RegisterBody)
    (salt : String) (fresh : Nat) (secret : String) (now : Nat)
    (hname : jsTruthyStr body.name = true)
    (hemail : jsTruthyStr body.email = true)
    (hpassword : jsTruthyStr body.password = true)
    (hfree : store.find? (fun u => u.email == body.email.getD "") = none) :
    (registerPOST store body salt fresh secret now).1.status = 201
    ∧ (registerPOST store body salt fresh secret now).1.success = some true
    ∧ (registerPOST store body salt fresh secret now).1.token = some (signRegisterToken fresh secret now)
    ∧ (registerPOST store body salt fresh secret now).1.user = none := by
  unfold registerPOST
  split
  next h1 =>
    rw [hname, hemail, hpassword] at h1
    simp at h1
  next h1 =>
    rw [hfree]
    exact ⟨rfl, rfl, rfl, rfl⟩

/-- C6 witness: Ann's registration on an empty store gets 201, success,
the register-router token, and no user object. -/
theorem register_success_response_witness :
    (registerPOST [] ⟨some "Ann", some "a@x.com", some "secret1"⟩ salt22 1 "sec" 0).1.status = 201
    ∧ (registerPOST [] ⟨some "Ann", some "a@x.com", some "secret1"⟩ salt22 1 "sec" 0).1.success = some true
    ∧ (registerPOST [] ⟨some "Ann", some "a@x.com", some "secret1"⟩ salt22 1 "sec" 0).1.token =
      some (signRegisterToken 1 "sec" 0)
    ∧ (registerPOST [] ⟨some "Ann", some "a@x.com", some "secret1"⟩ salt22 1 "sec" 0).1.user = none :=
  register_success_response [] ⟨some "Ann", some "a@x.com", some "secret1"⟩ salt22 1 "sec" 0
    rfl rfl rfl rfl

/-- C7 counterexample: with `JWT_SECRET` absent from the environment the
monolithic register handler still signs — with the hardcoded fallback
`'your-secret-key'` — so signing neither fails at startup nor avoids a
default secret. -/
theorem missing_secret_signs_with_default :
    (signMonoRegisterToken 1 none 0).sig = "your-secret-key" := rfl

/-- C7 (amended): an absent signing secret is handled per request, never at
startup: the monolithic register handler signs with the fallback literal
`'your-secret-key'`, and the app-router login route's `jwt.sign` throws,
which its catch maps to a 500 response. -/
theorem missing_secret_handled_per_request (uid now : Nat) (store : List UserDoc)
    (e p : String) (u : UserDoc)
    (hfound : store.find? (fun x => x.email == e) = some u)
    (hmatch : bcryptCompare p u.password = true) :
    (signMonoRegisterToken uid none now).sig = "your-secret-key"
    ∧ (nextLoginPOST store e p none now).status = 500 := by
  refine ⟨rfl, ?_⟩
  unfold nextLoginPOST
  rw [hfound]
  simp [hmatch]

/-- C7 witness: user 1 logs in with the right password while the secret is
absent; the register-handler token is signed with the default secret and the
login request ends in a 500. -/
theorem missing_secret_handled_per_request_witness :
    (signMonoRegisterToken 1 none 0).sig = "your-secret-key"
    ∧ (nextLoginPOST [user1] "a@x.com" "secret1" none 0).status = 500 :=
  missing_secret_handled_per_request 1 0 [user1] "a@x.com" "secret1" user1
    (by decide) (by decide)

/-- C8 counterexample: the standalone Cart schema accepts an item of
quantity 0 (its `quantity` has no `min`), the embedded user cart accepts
the same product on two line items, and it also accepts the non-integral
quantity 3/2 — so neither representation guarantees positive-integer
quantities with at most one line per product. -/
theorem cart_schema_quantity_gaps :
    cartDocItemValid { productId := some 1, quantity := some 0, price := some 5 } = true
    ∧ ¬((1 : ℚ) ≤ (0 : ℚ))
    ∧ userCartValid [{ productId := some 7, quantity := some 1 },
        { productId := some 7, quantity := some 2 }] = true
    ∧ userCartItemValid { productId := some 3, quantity := some q32 } = true
    ∧ q32.den ≠ 1 := by
  refine ⟨rfl, by norm_num, by decide, by decide, by decide⟩

/-- C8 (amended): in the user-embedded representation, schema validity does
force every line item's quantity to be present and at least 1. -/
theorem user_cart_valid_quantities (c : List UserCartItem)
    (h : userCartValid c = true) :
    ∀ it ∈ c, ∃ q : ℚ, it.quantity = some q ∧ 1 ≤ q := by
  intro it hit
  have hall := List.all_eq_true.mp h it hit
  unfold userCartItemValid at hall
  cases hq : it.quantity with
  | none =>
    rw [hq] at hall
    simp at hall
  | some q =>
    rw [hq] at hall
    simp only [Bool.and_eq_true, decide_eq_true_eq] at hall
    exact ⟨q, rfl, hall.2⟩

/-- C8 witness: a singleton valid embedded cart, whose only item indeed has
quantity at least 1. -/
theorem user_cart_valid_quantities_witness :
    userCartValid [{ productId := some 1, quantity := some 2 }] = true
    ∧ ∀ it ∈ [({ productId := some 1, quantity := some 2 } : UserCartItem)],
        ∃ q : ℚ, it.quantity = some q ∧ 1 ≤ q :=
  ⟨by decide, user_cart_valid_quantities _ (by decide)⟩

/-- C9: the middleware takes the second space-separated piece of the
Authorization header without inspecting the scheme word, so `X <tok>` is
authorized exactly as `Bearer <tok>` is, and a header containing no space
yields an undefined token, rejected 401 `No token, authorization denied`. -/
theorem auth_scheme_not_checked (decode : String → Option Jwt) (secret : String) (now : Nat)
    (scheme tok s : String) (hs : ' ' ∉ scheme.data) (ht : ' ' ∉ tok.data)
    (hns : ' ' ∉ s.data) :
    authMiddleware decode (some (scheme ++ " " ++ tok)) secret now =
      authMiddleware decode (some ("Bearer" ++ " " ++ tok)) secret now
    ∧ authMiddleware decode (some s) secret now =
      .unauthorized "No token, authorization denied" := by
  constructor
  · unfold authMiddleware
    rw [extractToken_scheme scheme tok hs ht,
      extractToken_scheme "Bearer" tok (by decide) ht]
  · unfold authMiddleware
    rw [extractToken_no_space s hns]

/-- C9 witness: scheme `X` with user 1's token behaves as `Bearer` does,
and the bare token header is rejected with the no-token 401. -/
theorem auth_scheme_not_checked_witness :
    authMiddleware dec1 (some ("X" ++ " " ++ "tkn1")) "sec" 5 =
      authMiddleware dec1 (some ("Bearer" ++ " " ++ "tkn1")) "sec" 5
    ∧ authMiddleware dec1 (some "tkn1") "sec" 5 =
      .unauthorized "No token, authorization denied" :=
  auth_scheme_not_checked dec1 "sec" 5 "X" "tkn1" "tkn1"
    (by decide) (by decide) (by decide)

/-- C10: the payment endpoint answers 400 and forwards nothing to the
processor whenever the token is missing or the amount is missing or zero —
in particular a zero-amount charge is never sent. -/
theorem payment_rejects_falsy (stripeCharge : ChargeRequest → Except String String)
    (body : PaymentBody)
    (h : body.token = none ∨ body.amount = none ∨ body.amount = some 0) :
    paymentPOST stripeCharge body =
      ({ status := 400, success := some false, message := some "Missing token or amount."
         data := none }, none) := by
  have hcond : (!body.token.isSome || !jsTruthyInt body.amount) = true := by
    rcases h with h | h | h
    · simp [h]
    · simp [h, jsTruthyInt]
    · simp [h, jsTruthyInt]
  unfold paymentPOST
  rw [if_pos hcond]

/-- C10 witness: a zero-amount request with a present card token is
rejected 400 and no charge request reaches the processor. -/
theorem payment_rejects_falsy_witness :
    paymentPOST (fun _ => Except.ok "ch_1") ⟨some ⟨"tok_visa"⟩, some 0⟩ =
      ({ status := 400, success := some false, message := some "Missing token or amount."
         data := none }, none) :=
  payment_rejects_falsy (fun _ => Except.ok "ch_1") ⟨some ⟨"tok_visa"⟩, some 0⟩
    (Or.inr (Or.inr rfl))
